import Mathlib

/-!
Shallow embedding of the RefugeLink message-processing pipeline.

Modelled source files:
* `src/utils/responseFormatter.ts` (`ResponseFormatter`)
* `src/services/MessageService.ts` (`MessageService.processMessage`,
  `MessageService.generateSessionId`, and the `DialogflowService` with its
  remote path and built-in keyword fallback)
* `src/services/TwilioService.ts` (`TwilioService.validateWebhookSignature`)
* `src/utils/constants.ts` (`INTENT_NAMES`, `QUICK_REPLIES`)

Conventions: JS strings are Lean `String`; a thrown exception is
`Except.error`; the contents of a JS array that a function mutates in place
are returned explicitly as a second component; repository and remote-NLU
collaborators are explicit function-valued environments.
-/

namespace RefugeLink

/-- Whitespace characters relevant to JS `String.prototype.trim` for the
(ASCII) inputs modelled here. -/
def jsIsWhitespace (c : Char) : Bool :=
  c == ' ' || c == '\t' || c == '\n' || c == '\r'

/-- Model of JS `String.prototype.trim`. -/
def jsTrim (s : String) : String :=
  String.mk (((s.data.dropWhile jsIsWhitespace).reverse.dropWhile jsIsWhitespace).reverse)

/-- Model of JS `String.prototype.toLowerCase` (ASCII lowering). -/
def jsToLower (s : String) : String :=
  String.mk (s.data.map Char.toLower)

/-- Auxiliary scan for substring containment. -/
def includesAux (pat : List Char) : List Char → Bool
  | [] => pat.isPrefixOf ([] : List Char)
  | c :: rest => pat.isPrefixOf (c :: rest) || includesAux pat rest

/-- Model of JS `hay.includes(pat)`. -/
def jsIncludes (hay pat : String) : Bool :=
  includesAux pat.data hay.data

/-- First index at which `pat` occurs (JS `indexOf`), `none` if absent. -/
def indexOfAux (pat : List Char) : List Char → Option Nat
  | [] => if pat.isPrefixOf ([] : List Char) then some 0 else none
  | c :: rest =>
    if pat.isPrefixOf (c :: rest) then some 0
    else (indexOfAux pat rest).map (· + 1)

/-- `a` occurs in `s` strictly before `b` does (both must occur). -/
def occursBefore (s a b : String) : Bool :=
  match indexOfAux a.data s.data, indexOfAux b.data s.data with
  | some i, some j => decide (i < j)
  | _, _ => false

/-- Insertion step of the stable sort below: the incoming element `x` is
placed after every `y` with `lt y x` (i.e. `cmp(y, x) < 0`). -/
def sortInsert (lt : α → α → Bool) (x : α) : List α → List α
  | [] => [x]
  | y :: ys => if lt y x then y :: sortInsert lt x ys else x :: y :: ys

/-- Stable sort modelling JS `Array.prototype.sort` with comparator `cmp`,
where `lt a b` means `cmp(a, b) < 0`.  ES2019 `sort` is stable, so the
result is fully determined by the comparator's preorder; elements the
comparator ties keep their original relative order. -/
def jsSort (lt : α → α → Bool) : List α → List α
  | [] => []
  | x :: xs => sortInsert lt x (jsSort lt xs)

/-- Row shape consumed from the `services` table. -/
structure Service where
  organization : String
  services : String
  category : String
  location : Option String := none
  contact_phone : Option String := none
deriving DecidableEq

/-- Row shape consumed from the `contacts` table; `ctype` models the
`type` column (`type` is reserved in Lean). -/
structure Contact where
  entity : String
  phone : Option String := none
  email : Option String := none
  description : Option String := none
  ctype : String
  is_urgent : Bool
deriving DecidableEq

/-- Row shape consumed from the `registration_steps` table. -/
structure RegistrationStep where
  step_number : Int
  title : String
  description : String
deriving DecidableEq

/-- Row shape consumed from the `required_documents` table. -/
structure RequiredDocument where
  document_name : String
  is_essential : Bool
deriving DecidableEq

/-- `BotResponse` from `src/types/index.ts`. -/
structure BotResponse where
  message : String
  quickReplies : Option (List String) := none
deriving DecidableEq

/-- JS `a || b` on nullable strings: `null` and the empty string are falsy. -/
def jsOrStr (a b : Option String) : Option String :=
  match a with
  | some s => if s == "" then b else some s
  | none => b

/-- Rendering a nullable string inside a template literal (`null` prints
as the text `null`). -/
def renderNullable : Option String → String
  | some s => s
  | none => "null"

/-- JS `x ? f(x) : ''` for a nullable string `x`. -/
def ifTruthy (x : Option String) (f : String → String) : String :=
  match x with
  | some s => if s == "" then "" else f s
  | none => ""

/-- `QUICK_REPLIES.REGISTRATION` from `src/utils/constants.ts`. -/
def QUICK_REPLIES_REGISTRATION : List String :=
  ["Contact Details", "Required Documents", "Registration Steps"]

/-- `QUICK_REPLIES.FOOD` from `src/utils/constants.ts`. -/
def QUICK_REPLIES_FOOD : List String :=
  ["Settlement Info", "WFP Contacts", "Distribution Points"]

/-- `QUICK_REPLIES.HEALTHCARE` from `src/utils/constants.ts`. -/
def QUICK_REPLIES_HEALTHCARE : List String :=
  ["Emergency Number", "Hospital Info", "Settlement Clinics"]

/-- `ResponseFormatter.formatRegistrationResponse`.  The JS body runs
`steps.sort((a, b) => a.step_number - b.step_number)`, which sorts the
caller's array in place before mapping over it; the model therefore returns
the post-call contents of `steps` alongside the response.  The `contacts`
argument is accepted and never read, as in the source. -/
def formatRegistrationResponse (steps : List RegistrationStep)
    (documents : List RequiredDocument) (contacts : List Contact) :
    BotResponse × List RegistrationStep :=
  let sorted := jsSort (fun a b => decide (a.step_number < b.step_number)) steps
  let stepDescriptions := String.intercalate "\n"
    (sorted.map (fun step =>
      toString step.step_number ++ ". " ++ step.title ++ ": " ++ step.description))
  let documentList := String.intercalate "\n"
    (documents.map (fun doc =>
      "• " ++ doc.document_name ++ (if doc.is_essential then " (Essential)" else "")))
  let message := "I can help with refugee registration. Here's the process:\n\n"
      ++ stepDescriptions ++ "\n\nRequired Documents:\n" ++ documentList
      ++ "\n\nWould you like more details about any specific step?"
  ({ message := message, quickReplies := some QUICK_REPLIES_REGISTRATION }, sorted)

/-- The static guidance `BotResponse` of the zero-matching-services branch of
`formatFoodResponse`. -/
def foodGuidanceResponse : BotResponse :=
  { message := "Food assistance is primarily provided by the World Food Programme (WFP) to registered refugees in settlements. Please ensure you are registered with OPM to access these services."
    quickReplies := some QUICK_REPLIES_FOOD }

/-- `ResponseFormatter.formatFoodResponse`.  Note: the filter keeps a service
when its `category` is `Food` *or* its `organization` contains `WFP`. -/
def formatFoodResponse (services : List Service) : BotResponse :=
  let foodServices := services.filter (fun service =>
    service.category == "Food" || jsIncludes service.organization "WFP")
  if foodServices.isEmpty then foodGuidanceResponse
  else
    let serviceInfo := String.intercalate "\n"
      (foodServices.map (fun service =>
        "• " ++ service.organization ++ ": " ++ service.services
          ++ ifTruthy service.location (fun loc => " (" ++ loc ++ ")")))
    { message := "Food assistance options:\n\n" ++ serviceInfo
        ++ "\n\nNote: Most food aid requires official registration and is distributed through settlements."
      quickReplies := some QUICK_REPLIES_FOOD }

/-- `ResponseFormatter.formatHealthcareResponse`. -/
def formatHealthcareResponse (services : List Service) (contacts : List Contact) :
    BotResponse :=
  let healthServices := services.filter (fun service => service.category == "Health")
  let emergencyContacts := contacts.filter (fun contact =>
    contact.ctype == "Emergency" || contact.ctype == "Hospital")
  let message := "Healthcare services available:\n\n"
  let message := if healthServices.isEmpty then message else
    message ++ String.intercalate "\n" (healthServices.map (fun service =>
      "• " ++ service.organization ++ ": " ++ service.services
        ++ ifTruthy service.contact_phone (fun p => " - " ++ p)))
  let message := if emergencyContacts.isEmpty then message else
    message ++ "\n\nEmergency Contacts:\n"
      ++ String.intercalate "\n" (emergencyContacts.map (fun contact =>
        "• " ++ contact.entity ++ ": " ++ renderNullable contact.phone
          ++ ifTruthy contact.description (fun d => " - " ++ d)))
  { message := message, quickReplies := some QUICK_REPLIES_HEALTHCARE }

/-- One rendered contact line (the mapping lambda used twice inside
`formatEmergencyContacts`). -/
def emergencyContactLine (contact : Contact) : String :=
  "• " ++ contact.entity ++ ": " ++ renderNullable (jsOrStr contact.phone contact.email)
    ++ ifTruthy contact.description (fun d => " - " ++ d)

/-- The urgent partition of `formatEmergencyContacts`:
`contacts.filter(c => c.is_urgent || c.type === 'Emergency')` followed by an
in-place stable sort of that fresh filtered array, urgent-flagged first
(comparator `(a, b) => (b.is_urgent ? 1 : 0) - (a.is_urgent ? 1 : 0)`). -/
def urgentContactsOf (contacts : List Contact) : List Contact :=
  jsSort
    (fun a b => decide ((if b.is_urgent then 1 else 0) < (if a.is_urgent then (1 : Nat) else 0)))
    (contacts.filter (fun contact => contact.is_urgent || contact.ctype == "Emergency"))

/-- The general partition of `formatEmergencyContacts`. -/
def generalContactsOf (contacts : List Contact) : List Contact :=
  contacts.filter (fun contact => !contact.is_urgent && contact.ctype != "Emergency")

/-- The urgent block appended to the message when the urgent partition is
non-empty. -/
def urgentBlockOf (contacts : List Contact) : String :=
  if (urgentContactsOf contacts).isEmpty then ""
  else "**URGENT CONTACTS:**\n"
    ++ String.intercalate "\n" ((urgentContactsOf contacts).map emergencyContactLine)

/-- The general block appended to the message when the general partition is
non-empty. -/
def generalBlockOf (contacts : List Contact) : String :=
  if (generalContactsOf contacts).isEmpty then ""
  else "\n\n**OTHER IMPORTANT CONTACTS:**\n"
    ++ String.intercalate "\n" ((generalContactsOf contacts).map emergencyContactLine)

/-- `ResponseFormatter.formatEmergencyContacts`: header, then the urgent
block, then the general block. -/
def formatEmergencyContacts (contacts : List Contact) : BotResponse :=
  { message := "🚨 **Emergency & Important Contacts**\n\n"
      ++ urgentBlockOf contacts ++ generalBlockOf contacts
    quickReplies := some ["More Contacts", "Registration Help", "Healthcare Info"] }

/-- `ResponseFormatter.formatErrorResponse`. -/
def formatErrorResponse : BotResponse :=
  { message := "Sorry, I encountered an error while processing your request. Please try again or contact support if the issue persists." }

/-- `ResponseFormatter.formatWelcomeResponse`. -/
def formatWelcomeResponse : BotResponse :=
  { message := "Hello! I'm here to provide information for refugees and displaced people in Mbarara. I can help you find information about registration, food, shelter, healthcare, and emergency contacts. What do you need help with today?"
    quickReplies := some ["Registration", "Food", "Shelter", "Healthcare", "Emergency Contacts"] }

/-- Read-only reference-data gateway (the Supabase-backed repositories).
Each query either returns rows or raises; `Except.error` models a rejected
promise. -/
structure DataEnv where
  getServicesByCategory : String → Except String (List Service)
  getContactsByType : String → Except String (List Contact)
  getAllContacts : Except String (List Contact)
  getAllSteps : Except String (List RegistrationStep)
  getRequiredDocuments : Except String (List RequiredDocument)

/-- The part of a Dialogflow `detectIntent` reply that the service reads. -/
structure QueryResult where
  intent : Option String
  fulfillmentText : Option String

/-- Remote-NLU collaborator state: `enabled` mirrors `isEnabled`,
`initialized` mirrors `sessionsClient`/`projectId` being set, and
`detectIntent` may raise, return a reply without `queryResult` (`none`),
or return one. -/
structure DialogflowEnv where
  enabled : Bool
  initialized : Bool
  detectIntent : String → String → Except String (Option QueryResult)

/-- `INTENT_NAMES.FIND_REGISTRATION` from `src/utils/constants.ts`. -/
def FIND_REGISTRATION : String := "find_registration"

/-- `INTENT_NAMES.FIND_FOOD` from `src/utils/constants.ts`. -/
def FIND_FOOD : String := "find_food"

/-- `INTENT_NAMES.FIND_SHELTER` from `src/utils/constants.ts`. -/
def FIND_SHELTER : String := "find_shelter"

/-- `INTENT_NAMES.FIND_HEALTHCARE` from `src/utils/constants.ts`. -/
def FIND_HEALTHCARE : String := "find_healthcare"

/-- `INTENT_NAMES.FIND_EMERGENCY_CONTACTS` from `src/utils/constants.ts`. -/
def FIND_EMERGENCY_CONTACTS : String := "find_emergency_contacts"

/-- `DialogflowService.handleRegistrationIntent`: `Promise.all` of three
fetches, then formatting; any rejection rejects the whole handler. -/
def handleRegistrationIntent (env : DataEnv) : Except String BotResponse :=
  match env.getAllSteps, env.getRequiredDocuments, env.getContactsByType "General" with
  | .ok steps, .ok documents, .ok contacts =>
      .ok (formatRegistrationResponse steps documents contacts).1
  | .error e, _, _ => .error e
  | _, .error e, _ => .error e
  | _, _, .error e => .error e

/-- `DialogflowService.handleFoodIntent`. -/
def handleFoodIntent (env : DataEnv) : Except String BotResponse :=
  match env.getServicesByCategory "Food" with
  | .ok services => .ok (formatFoodResponse services)
  | .error e => .error e

/-- Static guidance of the zero-services branch of `handleShelterIntent`. -/
def shelterGuidanceResponse : BotResponse :=
  { message := "Shelter assistance is arranged through the official registration process with OPM. You need to report to the OPM Refugee Desk to be assigned a place in a settlement. Would you like their contact information?"
    quickReplies := some ["OPM Contact", "Registration Info", "Main Menu"] }

/-- `DialogflowService.handleShelterIntent`.  The bullet text `â€¢` is the
mojibake literal present in the source file. -/
def handleShelterIntent (env : DataEnv) : Except String BotResponse :=
  match env.getServicesByCategory "Shelter" with
  | .ok services =>
    if services.isEmpty then .ok shelterGuidanceResponse
    else
      let serviceInfo := String.intercalate "\n" (services.map (fun service =>
        "â€¢ " ++ service.organization ++ ": " ++ service.services
          ++ ifTruthy service.location (fun loc => " (" ++ loc ++ ")")))
      .ok { message := "Shelter assistance options:\n\n" ++ serviceInfo
              ++ "\n\nNote: Most shelter assistance requires official registration with OPM."
            quickReplies := some ["OPM Contact", "Registration Steps", "More Info"] }
  | .error e => .error e

/-- `DialogflowService.handleHealthcareIntent`. -/
def handleHealthcareIntent (env : DataEnv) : Except String BotResponse :=
  match env.getServicesByCategory "Health", env.getContactsByType "Hospital" with
  | .ok services, .ok contacts => .ok (formatHealthcareResponse services contacts)
  | .error e, _ => .error e
  | _, .error e => .error e

/-- `DialogflowService.handleEmergencyContactsIntent`. -/
def handleEmergencyContactsIntent (env : DataEnv) : Except String BotResponse :=
  match env.getAllContacts with
  | .ok contacts => .ok (formatEmergencyContacts contacts)
  | .error e => .error e

/-- `DialogflowService.shouldUseCustomLogic`. -/
def shouldUseCustomLogic (intent : String) : Bool :=
  [FIND_REGISTRATION, FIND_FOOD, FIND_SHELTER, FIND_HEALTHCARE,
    FIND_EMERGENCY_CONTACTS].contains intent

/-- The `switch` statement inside `handleIntentWithCustomLogic` (the part
wrapped by its `try`). -/
def customIntentSwitch (env : DataEnv) (intent : String) : Except String BotResponse :=
  if intent == FIND_REGISTRATION then handleRegistrationIntent env
  else if intent == FIND_FOOD then handleFoodIntent env
  else if intent == FIND_SHELTER then handleShelterIntent env
  else if intent == FIND_HEALTHCARE then handleHealthcareIntent env
  else if intent == FIND_EMERGENCY_CONTACTS then handleEmergencyContactsIntent env
  else .ok { message := "I can help you with registration, food, shelter, healthcare, and emergency contacts. What specific information do you need?" }

/-- `DialogflowService.handleIntentWithCustomLogic`: the switch wrapped in a
`try`/`catch` that degrades any handler error to `formatErrorResponse`. -/
def handleIntentWithCustomLogic (env : DataEnv) (intent : String) : BotResponse :=
  match customIntentSwitch env intent with
  | .ok r => r
  | .error _ => formatErrorResponse

/-- Dialogflow's generic apology used when `fulfillmentText` is falsy. -/
def dialogflowApology : String := "I apologize, but I could not process your request."

/-- JS `fulfillmentText || apology` (absent or empty text falls back). -/
def fulfillmentOr (t : Option String) : String :=
  match t with
  | some s => if s == "" then dialogflowApology else s
  | none => dialogflowApology

/-- `DialogflowService.handleMessageWithDialogflow`. -/
def handleMessageWithDialogflow (env : DataEnv) (df : DialogflowEnv)
    (message sessionId : String) : Except String BotResponse :=
  if !df.initialized then .error "Dialogflow client not initialized"
  else
    match df.detectIntent message sessionId with
    | .error e => .error e
    | .ok none => .error "No response from Dialogflow"
    | .ok (some qr) =>
      match qr.intent with
      | some i =>
        if i != "" && shouldUseCustomLogic i then .ok (handleIntentWithCustomLogic env i)
        else .ok { message := fulfillmentOr qr.fulfillmentText }
      | none => .ok { message := fulfillmentOr qr.fulfillmentText }

/-- The closed intent enumeration of the spec's data model (§3). -/
inductive Intent
  | Registration | Food | Shelter | Healthcare | EmergencyContacts | Welcome | Fallback
deriving DecidableEq

/-- The final `else` response of the built-in keyword logic. -/
def builtinFallbackResponse : BotResponse :=
  { message := "I'm here to help with registration, food, shelter, healthcare, and emergency contacts for refugees in Mbarara. What specific information do you need?" }

/-- `DialogflowService.handleMessageWithBuiltInLogic`: lower-case and trim,
then the ordered keyword chain, first match dispatching to its handler. -/
def handleMessageWithBuiltInLogic (env : DataEnv) (message : String) :
    Except String BotResponse :=
  let lowerMessage := jsTrim (jsToLower message)
  if jsIncludes lowerMessage "register" || jsIncludes lowerMessage "registration"
      || jsIncludes lowerMessage "opm" then
    handleRegistrationIntent env
  else if jsIncludes lowerMessage "food" || jsIncludes lowerMessage "hungry"
      || jsIncludes lowerMessage "eat" then
    handleFoodIntent env
  else if jsIncludes lowerMessage "shelter" || jsIncludes lowerMessage "place to stay"
      || jsIncludes lowerMessage "sleep" then
    handleShelterIntent env
  else if jsIncludes lowerMessage "health" || jsIncludes lowerMessage "hospital"
      || jsIncludes lowerMessage "doctor" || jsIncludes lowerMessage "sick" then
    handleHealthcareIntent env
  else if jsIncludes lowerMessage "emergency" || jsIncludes lowerMessage "help"
      || jsIncludes lowerMessage "contact" then
    handleEmergencyContactsIntent env
  else if jsIncludes lowerMessage "hello" || jsIncludes lowerMessage "hi"
      || jsIncludes lowerMessage "start" then
    .ok formatWelcomeResponse
  else
    .ok builtinFallbackResponse

/-- The intent selected by the keyword chain of
`handleMessageWithBuiltInLogic` (same conditions, same order). -/
def builtinIntent (message : String) : Intent :=
  let lowerMessage := jsTrim (jsToLower message)
  if jsIncludes lowerMessage "register" || jsIncludes lowerMessage "registration"
      || jsIncludes lowerMessage "opm" then
    .Registration
  else if jsIncludes lowerMessage "food" || jsIncludes lowerMessage "hungry"
      || jsIncludes lowerMessage "eat" then
    .Food
  else if jsIncludes lowerMessage "shelter" || jsIncludes lowerMessage "place to stay"
      || jsIncludes lowerMessage "sleep" then
    .Shelter
  else if jsIncludes lowerMessage "health" || jsIncludes lowerMessage "hospital"
      || jsIncludes lowerMessage "doctor" || jsIncludes lowerMessage "sick" then
    .Healthcare
  else if jsIncludes lowerMessage "emergency" || jsIncludes lowerMessage "help"
      || jsIncludes lowerMessage "contact" then
    .EmergencyContacts
  else if jsIncludes lowerMessage "hello" || jsIncludes lowerMessage "hi"
      || jsIncludes lowerMessage "start" then
    .Welcome
  else
    .Fallback

/-- Dispatch from an `Intent` to the corresponding branch body of the
keyword chain. -/
def dispatchBuiltinIntent (env : DataEnv) : Intent → Except String BotResponse
  | .Registration => handleRegistrationIntent env
  | .Food => handleFoodIntent env
  | .Shelter => handleShelterIntent env
  | .Healthcare => handleHealthcareIntent env
  | .EmergencyContacts => handleEmergencyContactsIntent env
  | .Welcome => .ok formatWelcomeResponse
  | .Fallback => .ok builtinFallbackResponse

/-- `DialogflowService.getResponse`: built-in logic when disabled, otherwise
the Dialogflow path; the `catch` retries the built-in logic once, and an
error thrown by that retry propagates to the caller. -/
def getResponse (env : DataEnv) (df : DialogflowEnv) (message sessionId : String) :
    Except String BotResponse :=
  let attempt :=
    if !df.enabled then handleMessageWithBuiltInLogic env message
    else handleMessageWithDialogflow env df message sessionId
  match attempt with
  | .ok r => .ok r
  | .error _ => handleMessageWithBuiltInLogic env message

/-- Base64 alphabet used by Node `Buffer.toString('base64')`. -/
def base64Alphabet : List Char :=
  "ABCDEFGHIJKLMNOPQRSTUVWXYZabcdefghijklmnopqrstuvwxyz0123456789+/".data

/-- Digit lookup into the base64 alphabet. -/
def base64Digit (n : Nat) : Char := base64Alphabet.getD n 'A'

/-- Standard base64 of a byte sequence, with padding. -/
def base64Encode : List Nat → List Char
  | [] => []
  | [b0] => [base64Digit (b0 / 4), base64Digit (b0 % 4 * 16), '=', '=']
  | [b0, b1] =>
    [base64Digit (b0 / 4), base64Digit (b0 % 4 * 16 + b1 / 16),
      base64Digit (b1 % 16 * 4), '=']
  | b0 :: b1 :: b2 :: rest =>
    base64Digit (b0 / 4) :: base64Digit (b0 % 4 * 16 + b1 / 16) ::
    base64Digit (b1 % 16 * 4 + b2 / 64) :: base64Digit (b2 % 64) :: base64Encode rest

/-- UTF-8 bytes of one character (the encoding `Buffer.from(string)` uses). -/
def utf8BytesOfChar (c : Char) : List Nat :=
  let n := c.toNat
  if n < 128 then [n]
  else if n < 2048 then [192 + n / 64, 128 + n % 64]
  else if n < 65536 then [224 + n / 4096, 128 + n / 64 % 64, 128 + n % 64]
  else [240 + n / 262144, 128 + n / 4096 % 64, 128 + n / 64 % 64, 128 + n % 64]

/-- UTF-8 byte sequence of a string. -/
def utf8Bytes (s : String) : List Nat := s.data.flatMap utf8BytesOfChar

/-- `MessageService.generateSessionId`:
`'user-' + Buffer.from(userPhone).toString('base64').slice(0, 16)`. -/
def generateSessionId (userPhone : String) : String :=
  "user-" ++ String.mk ((base64Encode (utf8Bytes userPhone)).take 16)

/-- Instructional response for empty / whitespace-only input. -/
def instructionalResponse : BotResponse :=
  { message := "Please send a message with your question. I can help with registration, food, shelter, healthcare, and emergency contacts." }

/-- Response for input longer than 500 characters. -/
def tooLongResponse : BotResponse :=
  { message := "Your message is too long. Please keep your questions brief and focused on one topic at a time." }

/-- The generic response of `processMessage`'s top-level `catch`. -/
def processingFailureResponse : BotResponse :=
  { message := "Sorry, I encountered an error while processing your message. Please try again in a moment." }

/-- `MessageService.processMessage`: validation, session-key derivation and
intent resolution inside a `try` whose `catch` converts any propagated
error into `processingFailureResponse`. -/
def processMessage (env : DataEnv) (df : DialogflowEnv)
    (userMessage userPhone : String) : BotResponse :=
  let attempt : Except String BotResponse :=
    if userMessage == "" || (jsTrim userMessage).length == 0 then
      .ok instructionalResponse
    else if userMessage.length > 500 then
      .ok tooLongResponse
    else
      getResponse env df userMessage (generateSessionId userPhone)
  match attempt with
  | .ok r => r
  | .error _ => processingFailureResponse

/-- Configuration state of `TwilioService`: `isConfigured` mirrors account
SID and auth token both being present. -/
structure TwilioState where
  isConfigured : Bool
  authToken : String

/-- Shape of the third-party `twilio.validateRequest` call
(token, signature header, url, body params); it may throw. -/
def TwilioValidate :=
  String → String → String → List (String × String) → Except String Bool

/-- `TwilioService.validateWebhookSignature`: `false` when unconfigured,
`false` on a missing/falsy header, library verdict otherwise, with any
library exception caught and converted to `false`. -/
def validateWebhookSignature (st : TwilioState) (validateRequest : TwilioValidate)
    (url : String) (body : List (String × String)) (signature : Option String) :
    Bool :=
  if !st.isConfigured then false
  else
    match signature with
    | none => false
    | some sg =>
      if sg == "" then false
      else
        match validateRequest st.authToken sg url body with
        | .ok b => b
        | .error _ => false

/-- Lexicographic order on char lists by character code (boolean form). -/
def charListLe : List Char → List Char → Bool
  | [], _ => true
  | _ :: _, [] => false
  | a :: as, b :: bs =>
    if a.toNat < b.toNat then true
    else if b.toNat < a.toNat then false
    else charListLe as bs

/-- Modelled from the spec: the canonical string of the channel provider's
documented signature scheme, implemented by the third-party
`twilio.validateRequest` whose code is not part of this repository —
"concatenate the URL with each body parameter's key and value, sorted
lexicographically by key" (§4.1). -/
def canonicalPayload (url : String) (body : List (String × String)) : String :=
  url ++ String.join
    ((jsSort (fun a b => charListLe a.1.data b.1.data && !charListLe b.1.data a.1.data) body).map
      (fun kv => kv.1 ++ kv.2))

/-- Modelled from the spec: `twilio.validateRequest` recomputes the canonical
signature — HMAC of `canonicalPayload` with the shared secret, base64-encoded,
abstracted here as the function `mac` — and compares it with the header. -/
def twilioValidateModel (mac : String → String → String) : TwilioValidate :=
  fun token signature url body =>
    .ok (mac token (canonicalPayload url body) == signature)

/-- Sample reference data on which every fetch succeeds. -/
def envOK : DataEnv :=
  { getServicesByCategory := fun category =>
      if category == "Food" then
        .ok [⟨"WFP", "Monthly food distribution", "Food", some "Nakivale", none⟩]
      else if category == "Health" then
        .ok [⟨"MSF", "Clinic services", "Health", none, some "0800-100"⟩]
      else .ok []
    getContactsByType := fun t =>
      if t == "General" then
        .ok [⟨"OPM Desk", some "0800-200", none, some "Registration desk", "General", false⟩]
      else .ok []
    getAllContacts := .ok [⟨"Police", some "999", none, none, "Emergency", true⟩]
    getAllSteps := .ok [⟨1, "Visit OPM", "Go to the OPM Refugee Desk"⟩]
    getRequiredDocuments := .ok [⟨"ID card", true⟩] }

/-- Reference data on which the all-contacts fetch raises. -/
def envBad : DataEnv :=
  { getServicesByCategory := fun _ => .ok []
    getContactsByType := fun _ => .ok []
    getAllContacts := .error "db down"
    getAllSteps := .ok []
    getRequiredDocuments := .ok [] }

/-- Remote NLU disabled (the built-in path is used directly). -/
def dfDisabled : DialogflowEnv := ⟨false, false, fun _ _ => .error "disabled"⟩

/-- Remote NLU enabled but failing on every call. -/
def dfFailing : DialogflowEnv := ⟨true, true, fun _ _ => .error "network"⟩

theorem append_ne_empty_left (a b : String) (h : a ≠ "") : a ++ b ≠ "" := by
  intro hc
  apply h
  have hd := congrArg String.data hc
  rw [String.data_append] at hd
  exact String.ext (List.append_eq_nil.mp hd).1

theorem formatRegistrationResponse_message_ne (steps : List RegistrationStep)
    (documents : List RequiredDocument) (contacts : List Contact) :
    (formatRegistrationResponse steps documents contacts).1.message ≠ "" := by
  unfold formatRegistrationResponse
  dsimp only
  apply append_ne_empty_left
  apply append_ne_empty_left
  apply append_ne_empty_left
  apply append_ne_empty_left
  decide

theorem formatFoodResponse_message_ne (services : List Service) :
    (formatFoodResponse services).message ≠ "" := by
  unfold formatFoodResponse
  dsimp only
  split
  · decide
  · apply append_ne_empty_left
    apply append_ne_empty_left
    decide

theorem formatHealthcareResponse_message_ne (services : List Service)
    (contacts : List Contact) :
    (formatHealthcareResponse services contacts).message ≠ "" := by
  unfold formatHealthcareResponse
  dsimp only
  split <;> split <;>
    (repeat' apply append_ne_empty_left) <;> decide

theorem formatEmergencyContacts_message_ne (contacts : List Contact) :
    (formatEmergencyContacts contacts).message ≠ "" := by
  unfold formatEmergencyContacts
  dsimp only
  apply append_ne_empty_left
  apply append_ne_empty_left
  decide

/-- Every successful value of this pipeline step has a non-empty message. -/
def okMessageNe (x : Except String BotResponse) : Prop :=
  ∀ r, x = .ok r → r.message ≠ ""

theorem okMessageNe_ok (r : BotResponse) (h : r.message ≠ "") :
    okMessageNe (.ok r) := by
  intro r' hr
  cases hr
  exact h

theorem okMessageNe_error (e : String) : okMessageNe (.error e) := by
  intro r hr
  exact Except.noConfusion hr

theorem okNe_handleRegistrationIntent (env : DataEnv) :
    okMessageNe (handleRegistrationIntent env) := by
  unfold handleRegistrationIntent
  cases env.getAllSteps <;> cases env.getRequiredDocuments <;>
    cases env.getContactsByType "General" <;>
    first
      | exact okMessageNe_error _
      | exact okMessageNe_ok _ (formatRegistrationResponse_message_ne _ _ _)

theorem okNe_handleFoodIntent (env : DataEnv) :
    okMessageNe (handleFoodIntent env) := by
  unfold handleFoodIntent
  cases env.getServicesByCategory "Food" <;>
    first
      | exact okMessageNe_error _
      | exact okMessageNe_ok _ (formatFoodResponse_message_ne _)

theorem okNe_handleShelterIntent (env : DataEnv) :
    okMessageNe (handleShelterIntent env) := by
  unfold handleShelterIntent
  cases env.getServicesByCategory "Shelter" with
  | error e => exact okMessageNe_error _
  | ok services =>
    dsimp only
    split
    · exact okMessageNe_ok _ (by decide)
    · apply okMessageNe_ok
      apply append_ne_empty_left
      apply append_ne_empty_left
      decide

theorem okNe_handleHealthcareIntent (env : DataEnv) :
    okMessageNe (handleHealthcareIntent env) := by
  unfold handleHealthcareIntent
  cases env.getServicesByCategory "Health" <;> cases env.getContactsByType "Hospital" <;>
    first
      | exact okMessageNe_error _
      | exact okMessageNe_ok _ (formatHealthcareResponse_message_ne _ _)

theorem okNe_handleEmergencyContactsIntent (env : DataEnv) :
    okMessageNe (handleEmergencyContactsIntent env) := by
  unfold handleEmergencyContactsIntent
  cases env.getAllContacts <;>
    first
      | exact okMessageNe_error _
      | exact okMessageNe_ok _ (formatEmergencyContacts_message_ne _)

theorem okNe_customIntentSwitch (env : DataEnv) (intent : String) :
    okMessageNe (customIntentSwitch env intent) := by
  unfold customIntentSwitch
  split
  · exact okNe_handleRegistrationIntent env
  split
  · exact okNe_handleFoodIntent env
  split
  · exact okNe_handleShelterIntent env
  split
  · exact okNe_handleHealthcareIntent env
  split
  · exact okNe_handleEmergencyContactsIntent env
  exact okMessageNe_ok _ (by decide)

theorem handleIntentWithCustomLogic_message_ne (env : DataEnv) (intent : String) :
    (handleIntentWithCustomLogic env intent).message ≠ "" := by
  unfold handleIntentWithCustomLogic
  cases hc : customIntentSwitch env intent with
  | ok r => exact okNe_customIntentSwitch env intent r hc
  | error e =>
    show formatErrorResponse.message ≠ ""
    decide

theorem fulfillmentOr_ne (t : Option String) : fulfillmentOr t ≠ "" := by
  unfold fulfillmentOr
  cases t with
  | none => decide
  | some s =>
    dsimp only
    split
    · decide
    · next h => simpa using h

theorem okNe_handleMessageWithDialogflow (env : DataEnv) (df : DialogflowEnv)
    (m s : String) : okMessageNe (handleMessageWithDialogflow env df m s) := by
  unfold handleMessageWithDialogflow
  split
  · exact okMessageNe_error _
  cases df.detectIntent m s with
  | error e => exact okMessageNe_error _
  | ok qr? =>
    cases qr? with
    | none => exact okMessageNe_error _
    | some qr =>
      obtain ⟨intent, ft⟩ := qr
      cases intent with
      | none => exact okMessageNe_ok _ (fulfillmentOr_ne _)
      | some i =>
        dsimp only
        split
        · exact okMessageNe_ok _ (handleIntentWithCustomLogic_message_ne env i)
        · exact okMessageNe_ok _ (fulfillmentOr_ne _)

theorem okNe_handleMessageWithBuiltInLogic (env : DataEnv) (m : String) :
    okMessageNe (handleMessageWithBuiltInLogic env m) := by
  unfold handleMessageWithBuiltInLogic
  dsimp only
  split
  · exact okNe_handleRegistrationIntent env
  split
  · exact okNe_handleFoodIntent env
  split
  · exact okNe_handleShelterIntent env
  split
  · exact okNe_handleHealthcareIntent env
  split
  · exact okNe_handleEmergencyContactsIntent env
  split
  · exact okMessageNe_ok _ (by decide)
  exact okMessageNe_ok _ (by decide)

theorem okNe_getResponse (env : DataEnv) (df : DialogflowEnv) (m s : String) :
    okMessageNe (getResponse env df m s) := by
  obtain ⟨en, init, det⟩ := df
  unfold getResponse
  cases en with
  | false =>
    dsimp only
    cases hB : handleMessageWithBuiltInLogic env m with
    | ok r => exact okMessageNe_ok _ (okNe_handleMessageWithBuiltInLogic env m r hB)
    | error e => exact okMessageNe_error _
  | true =>
    dsimp only
    cases hD : handleMessageWithDialogflow env ⟨true, init, det⟩ m s with
    | ok r => exact okMessageNe_ok _ (okNe_handleMessageWithDialogflow _ _ _ _ r hD)
    | error e =>
      cases hB : handleMessageWithBuiltInLogic env m with
      | ok r => exact okMessageNe_ok _ (okNe_handleMessageWithBuiltInLogic env m r hB)
      | error e2 => exact okMessageNe_error _

theorem processMessage_message_ne (env : DataEnv) (df : DialogflowEnv)
    (msg phone : String) : (processMessage env df msg phone).message ≠ "" := by
  unfold processMessage
  dsimp only
  split
  · next r h =>
    split at h
    · injection h with h2
      subst h2
      decide
    · split at h
      · injection h with h2
        subst h2
        decide
      · exact okNe_getResponse env df msg (generateSessionId phone) r h
  · decide

theorem processMessage_error_recovery (env : DataEnv) (df : DialogflowEnv)
    (msg phone : String) (e : String)
    (htrim : (jsTrim msg).length ≠ 0) (hlen : msg.length ≤ 500)
    (herr : getResponse env df msg (generateSessionId phone) = .error e) :
    processMessage env df msg phone = processingFailureResponse := by
  unfold processMessage
  dsimp only
  split
  · next r h =>
    split at h
    · next hcond =>
      exfalso
      rcases Bool.or_eq_true_iff.mp hcond with h1 | h1
      · have : msg = "" := by simpa using h1
        subst this
        exact htrim (by decide)
      · exact htrim (by simpa using h1)
    · split at h
      · next hcond2 => omega
      · rw [herr] at h
        exact Except.noConfusion h
  · rfl

theorem sortInsert_perm (lt : α → α → Bool) (x : α) (l : List α) :
    List.Perm (sortInsert lt x l) (x :: l) := by
  induction l with
  | nil => exact List.Perm.refl _
  | cons y ys ih =>
    unfold sortInsert
    split
    · exact (List.Perm.cons y ih).trans (List.Perm.swap x y ys)
    · exact List.Perm.refl _

theorem jsSort_perm (lt : α → α → Bool) (l : List α) :
    List.Perm (jsSort lt l) l := by
  induction l with
  | nil => exact List.Perm.refl _
  | cons x xs ih =>
    unfold jsSort
    exact (sortInsert_perm lt x (jsSort lt xs)).trans (List.Perm.cons x ih)

theorem isPrefixOf_append_self (l t : List Char) : l.isPrefixOf (l ++ t) = true := by
  induction l with
  | nil => cases t <;> rfl
  | cons a as ih => simp [List.isPrefixOf, ih]

set_option maxRecDepth 40000

/-- Whitespace-only input of 501 characters (both validation branches apply
to it textually; the code takes the whitespace branch). -/
def whitespace501 : String := String.mk (List.replicate 501 ' ')

/-- Non-whitespace input of 501 characters. -/
def letters501 : String := String.mk (List.replicate 501 'a')

/-- A non-Food service run by an organization whose name contains `WFP`. -/
def wfpShelterService : Service := ⟨"WFP", "Cash transfers", "Shelter", none, none⟩

/-- A non-Food service from an organization whose name does not mention WFP. -/
def redCrossShelterService : Service := ⟨"Red Cross", "Blankets", "Shelter", none, none⟩

/-- The urgent contact of the spec's EmergencyContacts test vector. -/
def urgentContactA : Contact := ⟨"A", some "0800-111", none, none, "General", true⟩

/-- The non-urgent contact of the spec's EmergencyContacts test vector. -/
def generalContactB : Contact := ⟨"B", some "0800-222", none, none, "General", false⟩

/-- A registration step with the larger step number, listed first. -/
def stepLater : RegistrationStep := ⟨2, "Interview", "Attend the interview"⟩

/-- A registration step with the smaller step number, listed second. -/
def stepEarlier : RegistrationStep := ⟨1, "Visit OPM", "Go to the OPM Refugee Desk"⟩

/-- C1: for every non-empty (not whitespace-only) input of at most 500
characters, `processMessage` returns a `BotResponse` whose `message` is a
non-empty string (the first conjunct proves this for every input), and
`processMessage` never propagates an exception: any error raised anywhere in
the validate → derive-session-key → resolve-intent → compose sequence is
caught at the top level and converted into the generic try-again response. -/
theorem claim_C1_process_total_nonempty :
    (∀ (env : DataEnv) (df : DialogflowEnv) (msg phone : String),
      (processMessage env df msg phone).message ≠ "") ∧
    (∀ (env : DataEnv) (df : DialogflowEnv) (msg phone e : String),
      (jsTrim msg).length ≠ 0 → msg.length ≤ 500 →
      getResponse env df msg (generateSessionId phone) = .error e →
      processMessage env df msg phone = processingFailureResponse) :=
  ⟨processMessage_message_ne, processMessage_error_recovery⟩

/-- Witness for C1 at concrete inputs. -/
theorem claim_C1_witness :
    ((jsTrim "hello").length ≠ 0 ∧ "hello".length ≤ 500 ∧
      (processMessage envOK dfDisabled "hello" "+256700123456").message ≠ "") ∧
    (getResponse envBad dfDisabled "emergency" (generateSessionId "+15550001") =
        .error "db down" ∧
      processMessage envBad dfDisabled "emergency" "+15550001" =
        processingFailureResponse) := by
  have he : getResponse envBad dfDisabled "emergency" (generateSessionId "+15550001") =
      .error "db down" := by rfl
  exact ⟨⟨by decide, by decide,
          claim_C1_process_total_nonempty.1 envOK dfDisabled "hello" "+256700123456"⟩,
         ⟨he, claim_C1_process_total_nonempty.2 envBad dfDisabled "emergency" "+15550001"
            "db down" (by decide) (by decide) he⟩⟩

/-- C2 counterexample: with the remote NLU disabled (Path B used directly),
a failing data fetch inside the emergency-contacts handler propagates out of
`getResponse` as an error instead of degrading to a generic apology text:
the local keyword path has no internal catch. -/
theorem claim_C2_counterexample :
    getResponse envBad dfDisabled "emergency" "default-session" =
      .error "db down" := by
  rfl

/-- C2 amended: the degrade-to-apology behaviour exists only on the remote
path — `handleIntentWithCustomLogic` converts any handler error into
`formatErrorResponse` — while on the local keyword path a data-fetch error
propagates out of `getResponse` and is converted to a generic message only
by `processMessage`'s top-level catch. -/
theorem claim_C2_pathB_degradation :
    (∀ (env : DataEnv) (intent e : String),
      customIntentSwitch env intent = .error e →
      handleIntentWithCustomLogic env intent = formatErrorResponse) ∧
    (∀ (env : DataEnv) (df : DialogflowEnv) (msg phone e : String),
      (jsTrim msg).length ≠ 0 → msg.length ≤ 500 →
      getResponse env df msg (generateSessionId phone) = .error e →
      processMessage env df msg phone = processingFailureResponse) :=
  ⟨fun env intent e h => by unfold handleIntentWithCustomLogic; rw [h],
   processMessage_error_recovery⟩

/-- Witness for C2 at concrete inputs. -/
theorem claim_C2_witness :
    (customIntentSwitch envBad FIND_EMERGENCY_CONTACTS = .error "db down" ∧
      handleIntentWithCustomLogic envBad FIND_EMERGENCY_CONTACTS = formatErrorResponse) ∧
    processMessage envBad dfDisabled "emergency" "+15550001" =
      processingFailureResponse := by
  have hs : customIntentSwitch envBad FIND_EMERGENCY_CONTACTS = .error "db down" := by rfl
  exact ⟨⟨hs, claim_C2_pathB_degradation.1 envBad FIND_EMERGENCY_CONTACTS "db down" hs⟩,
         claim_C2_pathB_degradation.2 envBad dfDisabled "emergency" "+15550001" "db down"
           (by decide) (by decide) (by rfl)⟩

/-- C3: `validateWebhookSignature` is a total boolean function (never
throws); it returns `false` when the service is unconfigured, when the
signature header is missing, and when the library call throws; under the
spec-modelled recompute-and-compare library behaviour it returns `false`
when the recomputed signature differs from the header and `true` when the
header equals the signature recomputed with the shared secret. -/
theorem claim_C3_signature_validation :
    (∀ (tok : String) (vr : TwilioValidate) (url : String)
        (body : List (String × String)) (sig : Option String),
      validateWebhookSignature ⟨false, tok⟩ vr url body sig = false) ∧
    (∀ (st : TwilioState) (vr : TwilioValidate) (url : String)
        (body : List (String × String)),
      validateWebhookSignature st vr url body none = false) ∧
    (∀ (st : TwilioState) (url : String) (body : List (String × String)) (sg e : String),
      validateWebhookSignature st (fun _ _ _ _ => .error e) url body (some sg) = false) ∧
    (∀ (st : TwilioState) (mac : String → String → String) (url : String)
        (body : List (String × String)) (sg : String),
      mac st.authToken (canonicalPayload url body) ≠ sg →
      validateWebhookSignature st (twilioValidateModel mac) url body (some sg) = false) ∧
    (∀ (st : TwilioState) (mac : String → String → String) (url : String)
        (body : List (String × String)) (sg : String),
      st.isConfigured = true → sg ≠ "" →
      mac st.authToken (canonicalPayload url body) = sg →
      validateWebhookSignature st (twilioValidateModel mac) url body (some sg) = true) := by
  refine ⟨fun tok vr url body sig => rfl, ?_, ?_, ?_, ?_⟩
  · intro st vr url body
    obtain ⟨cfg, tok⟩ := st
    cases cfg <;> rfl
  · intro st url body sg e
    obtain ⟨cfg, tok⟩ := st
    cases cfg
    · rfl
    · simp [validateWebhookSignature]
  · intro st mac url body sg h
    obtain ⟨cfg, tok⟩ := st
    cases cfg
    · rfl
    · dsimp only at h
      by_cases hsg : (sg == "") = true
      · simp [validateWebhookSignature, hsg]
      · simp [validateWebhookSignature, twilioValidateModel, hsg, h]
  · intro st mac url body sg hcfg hsg hmac
    obtain ⟨cfg, tok⟩ := st
    cases hcfg
    dsimp only at hmac
    simp [validateWebhookSignature, twilioValidateModel, hmac, hsg]

/-- An example keyed-MAC stand-in used to instantiate the abstract HMAC in
the C3 witness. -/
def macConcat (token payload : String) : String := token ++ "#" ++ payload

/-- A configured Twilio state for the C3 witness. -/
def twilioConfigured : TwilioState := ⟨true, "secret"⟩

/-- Body parameters for the C3 witness. -/
def webhookBody : List (String × String) := [("From", "+1"), ("Body", "hi")]

/-- Witness for C3 at concrete inputs. -/
theorem claim_C3_witness :
    validateWebhookSignature twilioConfigured (twilioValidateModel macConcat)
      "https://x" webhookBody
      (some (macConcat "secret" (canonicalPayload "https://x" webhookBody))) = true ∧
    validateWebhookSignature twilioConfigured (twilioValidateModel macConcat)
      "https://x" webhookBody (some "wrong") = false ∧
    validateWebhookSignature ⟨false, "secret"⟩ (twilioValidateModel macConcat)
      "https://x" webhookBody (some "anything") = false ∧
    validateWebhookSignature twilioConfigured (twilioValidateModel macConcat)
      "https://x" webhookBody none = false :=
  ⟨claim_C3_signature_validation.2.2.2.2 twilioConfigured macConcat "https://x"
      webhookBody _ (by decide) (by decide) rfl,
   claim_C3_signature_validation.2.2.2.1 twilioConfigured macConcat "https://x"
      webhookBody "wrong" (by decide),
   claim_C3_signature_validation.1 "secret" (twilioValidateModel macConcat)
      "https://x" webhookBody (some "anything"),
   claim_C3_signature_validation.2.1 twilioConfigured (twilioValidateModel macConcat)
      "https://x" webhookBody⟩

/-- C4 counterexample: a list containing no Food-category service, but one
whose organization name contains `WFP`, does not produce the static guidance
message — the filter in `formatFoodResponse` also matches on the
organization name. -/
theorem claim_C4_counterexample :
    wfpShelterService.category ≠ "Food" ∧
    formatFoodResponse [wfpShelterService] ≠ foodGuidanceResponse :=
  ⟨by decide, by decide⟩

/-- C4 amended: if zero services in the list have category `Food` and no
service's organization name contains `WFP`, the composed Food response is
the static WFP/OPM guidance message, regardless of the other service data
present. -/
theorem claim_C4_no_food_guidance :
    ∀ services : List Service,
      (∀ s ∈ services, s.category ≠ "Food" ∧ jsIncludes s.organization "WFP" = false) →
      formatFoodResponse services = foodGuidanceResponse := by
  intro services h
  have hfilter : services.filter (fun service =>
      service.category == "Food" || jsIncludes service.organization "WFP") = [] := by
    rw [List.filter_eq_nil_iff]
    intro a ha
    obtain ⟨h1, h2⟩ := h a ha
    simp [h1, h2]
  unfold formatFoodResponse
  simp [hfilter]

/-- Witness for C4 at a concrete input. -/
theorem claim_C4_witness :
    (∀ s ∈ [redCrossShelterService],
      s.category ≠ "Food" ∧ jsIncludes s.organization "WFP" = false) ∧
    formatFoodResponse [redCrossShelterService] = foodGuidanceResponse := by
  have h : ∀ s ∈ [redCrossShelterService],
      s.category ≠ "Food" ∧ jsIncludes s.organization "WFP" = false := by decide
  exact ⟨h, claim_C4_no_food_guidance [redCrossShelterService] h⟩

/-- C5 counterexample: a message containing both `food` and `emergency` is
not always resolved to Food — the registration keyword group is tested
before the food group, so `register food emergency` resolves to
Registration. -/
theorem claim_C5_counterexample :
    jsIncludes "register food emergency" "food" = true ∧
    jsIncludes "register food emergency" "emergency" = true ∧
    builtinIntent "register food emergency" = Intent.Registration ∧
    Intent.Registration ≠ Intent.Food ∧
    handleMessageWithBuiltInLogic envOK "register food emergency" =
      handleRegistrationIntent envOK :=
  ⟨by decide, by decide, by decide, by decide, by rfl⟩

/-- C5 amended: the keyword groups are tested in the fixed order
registration → food → shelter → healthcare → emergency-contacts → welcome →
fallback and the first matching group wins; consequently every message whose
lower-cased trimmed text contains `food` (in particular one also containing
`emergency`) and none of the registration-group keywords
(`register`/`registration`/`opm`) resolves to Food. -/
theorem claim_C5_keyword_order :
    ∀ (env : DataEnv) (m : String),
      jsIncludes (jsTrim (jsToLower m)) "register" = false →
      jsIncludes (jsTrim (jsToLower m)) "registration" = false →
      jsIncludes (jsTrim (jsToLower m)) "opm" = false →
      jsIncludes (jsTrim (jsToLower m)) "food" = true →
      jsIncludes (jsTrim (jsToLower m)) "emergency" = true →
      builtinIntent m = Intent.Food ∧
      handleMessageWithBuiltInLogic env m = handleFoodIntent env := by
  intro env m h1 h2 h3 h4 h5
  constructor
  · simp [builtinIntent, h1, h2, h3, h4]
  · simp [handleMessageWithBuiltInLogic, h1, h2, h3, h4]

/-- Witness for C5 at a concrete input. -/
theorem claim_C5_witness :
    builtinIntent "food emergency" = Intent.Food ∧
    handleMessageWithBuiltInLogic envOK "food emergency" = handleFoodIntent envOK :=
  claim_C5_keyword_order envOK "food emergency"
    (by decide) (by decide) (by decide) (by decide) (by decide)

/-- C6: whenever the remote-NLU path raises an error, `getResponse` produces
exactly the result it would produce for the same input with the remote-NLU
integration disabled (the keyword fallback path's result). -/
theorem claim_C6_remote_error_fallback_equiv :
    ∀ (env : DataEnv) (df : DialogflowEnv) (m s e : String),
      df.enabled = true →
      handleMessageWithDialogflow env df m s = .error e →
      getResponse env df m s = getResponse env { df with enabled := false } m s := by
  intro env df m s e hen hD
  obtain ⟨en, init, det⟩ := df
  dsimp only at hen
  subst hen
  unfold getResponse
  rw [hD]
  cases hB : handleMessageWithBuiltInLogic env m <;> simp [hB]

/-- Witness for C6 at concrete inputs. -/
theorem claim_C6_witness :
    dfFailing.enabled = true ∧
    handleMessageWithDialogflow envOK dfFailing "hello" "sess" = .error "network" ∧
    getResponse envOK dfFailing "hello" "sess" =
      getResponse envOK { dfFailing with enabled := false } "hello" "sess" :=
  ⟨rfl, rfl,
   claim_C6_remote_error_fallback_equiv envOK dfFailing "hello" "sess" "network" rfl rfl⟩

/-- C7 counterexample: a whitespace-only input of 501 characters is longer
than 500 characters, yet `processMessage` returns the instructional message,
not the too-long message — the emptiness check runs first. -/
theorem claim_C7_counterexample :
    whitespace501.length > 500 ∧
    processMessage envOK dfDisabled whitespace501 "+15550001" = instructionalResponse ∧
    instructionalResponse ≠ tooLongResponse :=
  ⟨by decide, by decide, by decide⟩

/-- C7 amended: validation precedes intent resolution — every empty or
whitespace-only input yields the instructional message and every
non-whitespace-only input longer than 500 characters yields the too-long
message, in both cases for every data environment and NLU environment
(i.e. without consulting either intent-resolution path). -/
theorem claim_C7_validation_short_circuit :
    ∀ (env : DataEnv) (df : DialogflowEnv) (msg phone : String),
      ((jsTrim msg).length = 0 →
        processMessage env df msg phone = instructionalResponse) ∧
      ((jsTrim msg).length ≠ 0 → msg.length > 500 →
        processMessage env df msg phone = tooLongResponse) := by
  intro env df msg phone
  constructor
  · intro h0
    unfold processMessage
    simp [h0]
  · intro hne hlong
    unfold processMessage
    dsimp only
    have h1 : (msg == "" || (jsTrim msg).length == 0) = false := by
      simp only [Bool.or_eq_false_iff, beq_eq_false_iff_ne, ne_eq]
      constructor
      · intro hmsg
        subst hmsg
        exact hne (by decide)
      · exact hne
    rw [h1]
    simp [hlong]

/-- Witness for C7 at concrete inputs. -/
theorem claim_C7_witness :
    ((jsTrim "   ").length = 0 ∧
      processMessage envOK dfDisabled "   " "+15550001" = instructionalResponse) ∧
    ((jsTrim letters501).length ≠ 0 ∧ letters501.length > 500 ∧
      processMessage envOK dfFailing letters501 "+15550001" = tooLongResponse) :=
  ⟨⟨by decide, (claim_C7_validation_short_circuit envOK dfDisabled "   " "+15550001").1
      (by decide)⟩,
   ⟨by decide, by decide,
    (claim_C7_validation_short_circuit envOK dfFailing letters501 "+15550001").2
      (by decide) (by decide)⟩⟩

/-- C8: the rendered EmergencyContacts message is the header followed by the
urgent block (contacts with the urgent flag or type `Emergency`) followed by
the block of all other contacts; in particular, for the contact list
`[A urgent, B not]`, line `• A:` appears strictly before line `• B:`. -/
theorem claim_C8_urgent_block_first :
    (∀ contacts : List Contact,
      (formatEmergencyContacts contacts).message =
        "🚨 **Emergency & Important Contacts**\n\n"
          ++ urgentBlockOf contacts ++ generalBlockOf contacts) ∧
    occursBefore (formatEmergencyContacts [urgentContactA, generalContactB]).message
      "• A:" "• B:" = true :=
  ⟨fun _ => rfl, by decide⟩

/-- C9 counterexample: composing the Registration response changes the
caller's steps list — the in-place sort reorders `[step 2, step 1]` into
`[step 1, step 2]`. -/
theorem claim_C9_counterexample :
    (formatRegistrationResponse [stepLater, stepEarlier] [] []).2 ≠
      [stepLater, stepEarlier] := by
  decide

/-- C9 amended: `formatRegistrationResponse` sorts the caller's steps array
in place — the post-call contents are the stable ascending sort by
`step_number`, a permutation of the input but generally in a different
order; the other composer inputs are only read through non-mutating
`filter`/`map` and are left unchanged. -/
theorem claim_C9_steps_sorted_in_place :
    ∀ (steps : List RegistrationStep) (documents : List RequiredDocument)
        (contacts : List Contact),
      (formatRegistrationResponse steps documents contacts).2 =
        jsSort (fun a b => decide (a.step_number < b.step_number)) steps ∧
      List.Perm (formatRegistrationResponse steps documents contacts).2 steps :=
  fun steps _ _ => ⟨rfl, jsSort_perm _ steps⟩

/-- C10 counterexample: session-key derivation is not always different from
its input — `user-dXNlci1kWE5sY2kx` is a fixed point of
`generateSessionId`. -/
theorem claim_C10_counterexample :
    generateSessionId "user-dXNlci1kWE5sY2kx" = "user-dXNlci1kWE5sY2kx" := by
  decide

/-- C10 amended: session-key derivation is deterministic (a pure function of
the sender id), and `derive(x) ≠ x` holds for every sender id that does not
itself start with the fixed prefix `user-` (fixed points exist among
`user-`-prefixed strings, as the counterexample shows). -/
theorem claim_C10_session_key_derivation :
    ∀ x : String,
      generateSessionId x = generateSessionId x ∧
      ("user-".data.isPrefixOf x.data = false → generateSessionId x ≠ x) := by
  intro x
  refine ⟨rfl, fun h heq => ?_⟩
  unfold generateSessionId at heq
  have hd := congrArg String.data heq
  rw [String.data_append] at hd
  have hp := isPrefixOf_append_self "user-".data
    ((base64Encode (utf8Bytes x)).take 16)
  rw [hd] at hp
  rw [h] at hp
  exact Bool.noConfusion hp

/-- Witness for C10 at a concrete input. -/
theorem claim_C10_witness :
    generateSessionId "+256700123456" = generateSessionId "+256700123456" ∧
    generateSessionId "+256700123456" ≠ "+256700123456" :=
  ⟨(claim_C10_session_key_derivation "+256700123456").1,
   (claim_C10_session_key_derivation "+256700123456").2 (by decide)⟩

end RefugeLink
